import Mathlib

/-!
Verification development for the Asana → Rocket.Chat bridge, centred on the
webhook ingestion endpoint (`AsanaWebhookEndpoint` in the current revision of
the webhook endpoint source file).

The TypeScript code is shallowly embedded: the key-value persistence layer is a
list of (association id, record) pairs, external collaborators (the crypto HMAC
primitive, the room reader, the OAuth2 service, the settings reader, HTTP detail
fetches) are oracles collected in an `Env` record, and the endpoint's methods
become pure functions from request, environment and persistence state to a
response, a new state and the list of chat messages it posts.

JavaScript conventions that matter for faithfulness:
- a `x || y` or `if (x)` test on a string field treats the empty string and a
  missing field alike ("falsiness"); the helpers `truthy` / `truthyOpt` /
  `orUnknown` encode this;
- `readByAssociation` returns an array and the code destructures its first
  element; reading with an empty association id is used by the code to
  enumerate every record of that association model, and is modelled that way.
-/

namespace AsanaBridge

/-- A reference carried on Asana payloads: `{ gid, name }`. -/
structure NamedRef where
  gid : String := ""
  name : String := ""
  deriving Repr, DecidableEq

/-- The `resource` / `parent` / `webhook` objects on an inbound event:
`{ gid, resource_type }`. -/
structure Resource where
  gid : String := ""
  resource_type : String := ""
  deriving Repr, DecidableEq

/-- The `change` object on a `changed` event. -/
structure Change where
  field : String := ""
  deriving Repr, DecidableEq

/-- One inbound webhook event (transient, per request). Optional fields model
JavaScript properties that may be absent. -/
structure Event where
  user : Option NamedRef := none
  action : String := ""
  resource : Option Resource := none
  parent : Option Resource := none
  webhook : Option Resource := none
  change : Option Change := none
  deriving Repr, DecidableEq

/-- JavaScript truthiness of an optional string: absent and `""` are falsy. -/
def truthy : Option String → Bool
  | some s => s != ""
  | none => false

/-- Keep an optional string only when it is truthy. -/
def truthyOpt : Option String → Option String
  | some s => if s == "" then none else some s
  | none => none

/-- The code's `x || 'unknown'` defaulting on an optional string field. -/
def orUnknown : Option String → String
  | some s => if s == "" then "unknown" else s
  | none => "unknown"

/-- The change-field component of the dedup key (`deduplicateEvents`): empty
unless the (defaulted) action is `changed` and a truthy change field is
present; `due_on` and `due_at` collapse to `due_on`. -/
def dedupChangeField (e : Event) : String :=
  let action := if e.action == "" then "unknown" else e.action
  if action == "changed" then
    match e.change with
    | some c =>
      if c.field != "" then
        if c.field == "due_on" || c.field == "due_at" then "due_on" else c.field
      else ""
    | none => ""
  else ""

/-- The unique key `deduplicateEvents` builds for an event:
`userId:action:resourceId` with `:changeField` appended when non-empty. -/
def eventKey (e : Event) : String :=
  let userId := orUnknown (e.user.map NamedRef.gid)
  let action := if e.action == "" then "unknown" else e.action
  let resourceId := orUnknown (e.resource.map Resource.gid)
  let changeField := dedupChangeField e
  userId ++ ":" ++ action ++ ":" ++ resourceId ++
    (if changeField == "" then "" else ":" ++ changeField)

/-- The loop of `deduplicateEvents`: keep an event iff its key was not seen. -/
def dedupGo : List Event → List String → List Event
  | [], _ => []
  | e :: rest, seen =>
    if eventKey e ∈ seen then dedupGo rest seen
    else e :: dedupGo rest (eventKey e :: seen)

/-- `deduplicateEvents`, including its early return on batches of length ≤ 1. -/
def deduplicateEvents (events : List Event) : List Event :=
  if events.length ≤ 1 then events else dedupGo events []

/-- Modelled from the spec (§4.2, claim C3): the dedup key read literally as a
4-tuple `(user.gid or "unknown", action, resource.gid or "unknown",
normalizedChangeField)`, for comparison with the code's joined string key. -/
def specChangeField (e : Event) : String :=
  if e.action == "changed" then
    match e.change with
    | some c => if c.field == "due_on" || c.field == "due_at" then "due_on" else c.field
    | none => ""
  else ""

/-- Modelled from the spec (§4.2): the dedup key as the 4-tuple the spec
describes. -/
def specKey (e : Event) : String × String × String × String :=
  (orUnknown (e.user.map NamedRef.gid), e.action,
   orUnknown (e.resource.map Resource.gid), specChangeField e)

/-- Modelled from the spec: first-occurrence-wins deduplication keyed by the
4-tuple `specKey`. -/
def specDedupGo : List Event → List (String × String × String × String) → List Event
  | [], _ => []
  | e :: rest, seen =>
    if specKey e ∈ seen then specDedupGo rest seen
    else e :: specDedupGo rest (specKey e :: seen)

/-- Modelled from the spec: tuple-keyed dedup over a whole batch. -/
def specDedup (events : List Event) : List Event :=
  specDedupGo events []

/-- A string with no `:` character; on such components the joined string key
and the tuple key carry the same information. -/
def colonFree (s : String) : Bool :=
  s.data.all (fun c => c != ':')

/-- An event all of whose key components are colon-free and whose action is a
non-empty string. -/
def eventColonFree (e : Event) : Bool :=
  colonFree (orUnknown (e.user.map NamedRef.gid)) &&
  (e.action != "") && colonFree e.action &&
  colonFree (orUnknown (e.resource.map Resource.gid)) &&
  colonFree (specChangeField e)

/-- Join a key tuple into the code's string form. -/
def joinKey : String × String × String × String → String
  | (u, a, r, c) => u ++ ":" ++ a ++ ":" ++ r ++ (if c == "" then "" else ":" ++ c)

/-- All four components of a key tuple are colon-free. -/
def tupleColonFree (t : String × String × String × String) : Bool :=
  colonFree t.1 && colonFree t.2.1 && colonFree t.2.2.1 && colonFree t.2.2.2

/-- One record stored in the key-value persistence. The code stores and reads
loosely-typed objects; the union of the fields it ever touches is collected
here, each optional. `recId` models the `id` property several filters test
(`record.id && record.id.startsWith(...)`); note that none of the objects the
app itself persists carries such a property. `createdAt` models the stored
timestamp as milliseconds (the code compares `new Date(x).getTime()`). -/
structure KVRecord where
  secret : Option String := none
  roomId : Option String := none
  resourceId : Option String := none
  webhookId : Option String := none
  access_token : Option String := none
  recId : Option String := none
  createdAt : Option Nat := none
  autoCreated : Bool := false
  deriving Repr, DecidableEq

/-- Persistence state: MISC-model and ROOM-model association records, in
creation order (`createWithAssociation` appends). -/
structure PersistState where
  misc : List (String × KVRecord) := []
  roomRecs : List (String × KVRecord) := []
  deriving Repr, DecidableEq

/-- `const [x] = await read.getPersistenceReader().readByAssociation(assoc)`:
the first stored record under that MISC association id. -/
def readMisc (s : PersistState) (key : String) : Option KVRecord :=
  ((s.misc.filter (fun kv => kv.1 == key)).head?).map Prod.snd

/-- Reading MISC with an empty association id, which the code uses to
enumerate every MISC record. -/
def readAllMisc (s : PersistState) : List KVRecord :=
  s.misc.map Prod.snd

/-- Reading ROOM with an empty association id: every ROOM-model record. -/
def readAllRoomRecs (s : PersistState) : List KVRecord :=
  s.roomRecs.map Prod.snd

/-- `persis.createWithAssociation(data, assoc)` on a MISC association. -/
def createMisc (s : PersistState) (key : String) (r : KVRecord) : PersistState :=
  { s with misc := s.misc ++ [(key, r)] }

/-- Enriched task detail (`opt_fields=name,notes,completed,due_on,assignee,projects`). -/
structure TaskDetail where
  name : String := ""
  notes : String := ""
  completed : Bool := false
  due_on : Option String := none
  assignee : Option NamedRef := none
  projects : List NamedRef := []
  deriving Repr, DecidableEq

/-- Enriched project detail (`opt_fields=name,notes,archived,owner,workspace`). -/
structure ProjectDetail where
  name : String := ""
  notes : String := ""
  archived : Bool := false
  owner : Option NamedRef := none
  workspace : Option NamedRef := none
  deriving Repr, DecidableEq

/-- Story detail: the related task reference and the comment text. -/
structure StoryDetail where
  resource : Option NamedRef := none
  text : String := ""
  deriving Repr, DecidableEq

/-- External collaborators of the endpoint, as oracles:
- `hmacSha256Hex secret message` stands for
  `crypto.createHmac('sha256', secret).update(message).digest('hex')`;
- `rooms` is the set of room ids for which `RoomReader.getById` succeeds, and
  `generalRoom` the id `RoomReader.getByName('general')` returns, if any;
- `appUser` is the app user id, `oauthUserToken` / `oauthClientToken` the
  tokens the OAuth2 service yields for the app user / the client;
- the `settings*` fields are the app settings the endpoint reads;
- `taskDetails` / `projectDetails` / `storyDetails` are the results of the
  detail fetches (ApiService or direct HTTP), `none` meaning the fetch failed
  (non-200 or network failure) in every attempted way;
- `localeDate` stands for `new Date(x).toLocaleDateString()` and `nowMs` for
  `Date.now()`. -/
structure Env where
  hmacSha256Hex : String → String → String := fun _ _ => ""
  rooms : List String := []
  generalRoom : Option String := none
  appUser : Option String := none
  oauthUserToken : Option String := none
  oauthClientToken : Option String := none
  settingsWebhookSecret : Option String := none
  settingsApiKey : Option String := none
  settingsColor : Option String := none
  taskDetails : String → Option TaskDetail := fun _ => none
  projectDetails : String → Option ProjectDetail := fun _ => none
  storyDetails : String → Option StoryDetail := fun _ => none
  localeDate : String → String := fun s => s
  nowMs : Nat := 0

/-- `read.getRoomReader().getById(rid)` succeeds. -/
def roomExists (env : Env) (rid : String) : Bool :=
  env.rooms.contains rid

/-- The parsed request body. `webhook` is `content.webhook.gid` when present;
`serialized` is `JSON.stringify(request.content)`; `asString` is the body
itself when the parsed content is a plain string (`typeof === 'string'`). -/
structure WebhookContent where
  webhook : Option String := none
  events : List Event := []
  serialized : String := ""
  asString : Option String := none
  deriving Repr, DecidableEq

/-- An inbound HTTP request: header and query maps (header names lowercased by
the platform) plus the parsed content. -/
structure Request where
  headers : List (String × String) := []
  query : List (String × String) := []
  content : WebhookContent := {}
  deriving Repr, DecidableEq

/-- First value bound to a key in a header/query map. -/
def lookupField (kvs : List (String × String)) (k : String) : Option String :=
  ((kvs.filter (fun kv => kv.1 == k)).head?).map Prod.snd

/-- Response body: empty (handshake), `{success:true}`, or `{error:msg}`. -/
inductive RespBody where
  | empty
  | success
  | err (msg : String)
  deriving Repr, DecidableEq

/-- An HTTP response of the endpoint. -/
structure Response where
  status : Nat
  headers : List (String × String) := []
  body : RespBody := RespBody.empty
  deriving Repr, DecidableEq

/-- A chat message posted by the dispatcher: room, sender, title line and the
attachment pieces the code builds. -/
structure ChatMessage where
  roomId : String := ""
  sender : String := ""
  text : String := ""
  attachTitle : String := ""
  attachLink : String := ""
  attachText : String := ""
  color : String := ""
  fields : List (String × String) := []
  deriving Repr, DecidableEq

/-- `getWebhookIdFromRequest`: query param, then header, then
`content.webhook.gid`, then the first event's resource / parent id via the
`resource_webhook_map_<id>` indirection. -/
def getWebhookIdFromRequest (req : Request) (s : PersistState) : Option String :=
  (truthyOpt (lookupField req.query "webhook_id")).orElse fun _ =>
  (truthyOpt (lookupField req.headers "x-asana-webhook-id")).orElse fun _ =>
  (truthyOpt req.content.webhook).orElse fun _ =>
  match req.content.events with
  | [] => none
  | e :: _ =>
    (match truthyOpt (e.resource.map Resource.gid) with
     | some rid =>
       (readMisc s ("resource_webhook_map_" ++ rid)).bind fun r => truthyOpt r.webhookId
     | none => none).orElse fun _ =>
    match truthyOpt (e.parent.map Resource.gid) with
    | some pid =>
      (readMisc s ("resource_webhook_map_" ++ pid)).bind fun r => truthyOpt r.webhookId
    | none => none

/-- Append a secret candidate unless it is already present
(`!secrets.includes(x)`). -/
def pushNew (acc : List String) (x : String) : List String :=
  if x ∈ acc then acc else acc ++ [x]

/-- `getAllStoredSecrets`: webhook-specific secret, then the `latest` secret,
then every MISC record whose `id` starts with `asana_webhook_secret_`, then the
legacy generic secret, then the settings secret; each added only if new. -/
def getAllStoredSecrets (env : Env) (s : PersistState) (webhookId : Option String) :
    List String :=
  let s1 : List String :=
    match webhookId with
    | some w =>
      match (readMisc s ("asana_webhook_secret_" ++ w)).bind (fun r => truthyOpt r.secret) with
      | some sec => [sec]
      | none => []
    | none => []
  let s2 :=
    match (readMisc s "asana_webhook_secret_latest").bind (fun r => truthyOpt r.secret) with
    | some sec => pushNew s1 sec
    | none => s1
  let s3 := (readAllMisc s).foldl
    (fun acc r =>
      match r.recId with
      | some i =>
        if i.startsWith "asana_webhook_secret_" then
          match truthyOpt r.secret with
          | some sec => pushNew acc sec
          | none => acc
        else acc
      | none => acc) s2
  let s4 :=
    match (readMisc s "asana_webhook_secret").bind (fun r => truthyOpt r.secret) with
    | some sec => pushNew s3 sec
    | none => s3
  match truthyOpt env.settingsWebhookSecret with
  | some sec => pushNew s4 sec
  | none => s4

/-- `verifyWebhookSignature`. Handshake requests pass; otherwise a missing
signature header or an empty candidate-secret list fails; otherwise each secret
is tried with three digest computations (the second serialization
`JSON.stringify(content, null, 0)` coincides with the first, and the third uses
the raw string only when the parsed body is itself a string) — and, on no
match, the code logs a warning and STILL RETURNS TRUE (the debugging bypass
kept in this revision; both arms of the final `if` are `true`). -/
def verifyWebhookSignature (env : Env) (req : Request) (s : PersistState) : Bool :=
  if truthy (lookupField req.headers "x-hook-secret") then true
  else
    let webhookId := getWebhookIdFromRequest req s
    match (truthyOpt (lookupField req.headers "x-hook-signature")).orElse
        (fun _ => truthyOpt (lookupField req.headers "x-asana-request-signature")) with
    | none => false
    | some signature =>
      let secrets := getAllStoredSecrets env s webhookId
      if secrets.isEmpty then false
      else
        let requestContent := req.content.serialized
        let matched := secrets.any fun sec =>
          let c1 := env.hmacSha256Hex sec requestContent
          let c2 := env.hmacSha256Hex sec requestContent
          let rawBody := req.content.asString.getD requestContent
          let c3 := env.hmacSha256Hex sec rawBody
          signature == c1 || (c2 != c1 && signature == c2) || signature == c3
        if matched then true else true

/-- `handleWebhookHandshake`: on a truthy `x-hook-secret` header, store the
secret keyed by the extracted webhook id (when `content.webhook.gid` is
present) and as `asana_webhook_secret_latest`, and echo the secret back with
HTTP 200; otherwise not a handshake. -/
def handleWebhookHandshake (req : Request) (s : PersistState) :
    Option (Response × PersistState) :=
  match truthyOpt (lookupField req.headers "x-hook-secret") with
  | none => none
  | some hookSecret =>
    let s1 :=
      match truthyOpt req.content.webhook with
      | some w => createMisc s ("asana_webhook_secret_" ++ w) { secret := some hookSecret }
      | none => s
    let s2 := createMisc s1 "asana_webhook_secret_latest" { secret := some hookSecret }
    some ({ status := 200, headers := [("X-Hook-Secret", hookSecret)],
            body := RespBody.empty }, s2)

/-- Step 0a of `getAuthHeaders`: the OAuth2 service's access token for the app
user (tried only when an app user exists). -/
def oauthAppUserToken (env : Env) : Option String :=
  match env.appUser with
  | some _ => truthyOpt env.oauthUserToken
  | none => none

/-- Step 1 of `getAuthHeaders`: the token stored under `webhook_token_<id>`. -/
def webhookStoredToken (s : PersistState) (webhookId : Option String) : Option String :=
  match webhookId with
  | some w => (readMisc s ("webhook_token_" ++ w)).bind fun r => truthyOpt r.access_token
  | none => none

/-- Step 2 of `getAuthHeaders`: the first MISC record containing a truthy
`access_token`. -/
def firstStoredAccessToken (s : PersistState) : Option String :=
  (((readAllMisc s).filter (fun r => truthy r.access_token)).head?).bind
    fun r => r.access_token

/-- Step 3 of `getAuthHeaders`: the record stored under `admin_token`. -/
def adminStoredToken (s : PersistState) : Option String :=
  (readMisc s "admin_token").bind fun r => truthyOpt r.access_token

/-- `getAuthHeaders`, reduced to the bearer token it selects (the headers are
`Authorization: Bearer <token>` plus a constant `Accept` when a token is
found, and the bare `Accept` header otherwise). The nested early returns of
the source appear here as nested matches, in source order: OAuth app-user
token, OAuth client token, webhook-scoped stored token, any stored token
record, the `admin_token` record, the settings API key. -/
def getAuthToken (env : Env) (s : PersistState) (webhookId : Option String) :
    Option String :=
  match oauthAppUserToken env with
  | some t => some t
  | none =>
    match truthyOpt env.oauthClientToken with
    | some t => some t
    | none =>
      match webhookStoredToken s webhookId with
      | some t => some t
      | none =>
        match firstStoredAccessToken s with
        | some t => some t
        | none =>
          match adminStoredToken s with
          | some t => some t
          | none => truthyOpt env.settingsApiKey

/-- Modelled from the spec (§4.4, claim C8): the token selection order as the
spec words it — webhook-scoped stored token, then any stored token, then the
admin/app-user token, then the settings-configured API key. -/
def specTokenOrder (env : Env) (s : PersistState) (webhookId : Option String) :
    Option String :=
  (webhookStoredToken s webhookId).orElse fun _ =>
  (firstStoredAccessToken s).orElse fun _ =>
  ((adminStoredToken s).orElse fun _ => oauthAppUserToken env).orElse fun _ =>
  truthyOpt env.settingsApiKey

/-- The title line of a task notification (`processTaskEvent`), built from the
actor name, the action and the task name (and the assignee name for
`assigned`). -/
def taskMessageText (user action name assignee : String) : String :=
  if action == "added" then "🆕 " ++ user ++ " created a new task: *" ++ name ++ "*"
  else if action == "changed" then "🔄 " ++ user ++ " updated task: *" ++ name ++ "*"
  else if action == "removed" then "🗑️ " ++ user ++ " removed task: *" ++ name ++ "*"
  else if action == "completed" then "✅ " ++ user ++ " completed task: *" ++ name ++ "*"
  else if action == "uncompleted" then
    "🔄 " ++ user ++ " marked task as incomplete: *" ++ name ++ "*"
  else if action == "assigned" then
    "👤 " ++ user ++ " assigned task to " ++ assignee ++ ": *" ++ name ++ "*"
  else if action == "due" then "📅 " ++ user ++ " set due date for task: *" ++ name ++ "*"
  else "📝 Task *" ++ name ++ "* was " ++ action

/-- `processTaskEvent`: aborts (no message) when the task detail fetch fails or
the app user is unavailable; otherwise posts the notification, with the actor
hard-coded to "Zilong Xue" (the commented-out code reading `event.user` is
dead). -/
def processTaskEvent (env : Env) (e : Event) (roomId : String) : Option ChatMessage :=
  let taskId := (e.resource.map Resource.gid).getD ""
  let user := "Zilong Xue"
  match env.taskDetails taskId with
  | none => none
  | some td =>
    let notificationColor := (truthyOpt env.settingsColor).getD "#FC636B"
    let assignee := match td.assignee with | some a => a.name | none => "someone"
    let message := taskMessageText user e.action td.name assignee
    match env.appUser with
    | none => none
    | some sender =>
      some {
        roomId := roomId
        sender := sender
        text := message
        attachTitle := td.name
        attachLink :=
          match td.projects with
          | p :: _ => "https://app.asana.com/0/" ++ p.gid ++ "/" ++ taskId
          | [] => "https://app.asana.com/0/0/" ++ taskId
        attachText := td.notes
        color := notificationColor
        fields := [
          ("Status", if td.completed then "Completed" else "Incomplete"),
          ("Due Date",
            match truthyOpt td.due_on with
            | some d => env.localeDate d
            | none => "No due date"),
          ("Assignee", match td.assignee with | some a => a.name | none => "Unassigned")] }

/-- The title line of a project notification (`processProjectEvent`). -/
def projectMessageText (user action name : String) : String :=
  if action == "added" then "🆕 " ++ user ++ " created a new project: *" ++ name ++ "*"
  else if action == "changed" then "🔄 " ++ user ++ " updated project: *" ++ name ++ "*"
  else if action == "removed" then "🗑️ " ++ user ++ " removed project: *" ++ name ++ "*"
  else "📝 Project *" ++ name ++ "* was " ++ action

/-- `processProjectEvent`: aborts when the project detail fetch fails or the
app user is unavailable; the actor is likewise hard-coded to "Zilong Xue". -/
def processProjectEvent (env : Env) (e : Event) (roomId : String) : Option ChatMessage :=
  let projectId := (e.resource.map Resource.gid).getD ""
  let user := "Zilong Xue"
  match env.projectDetails projectId with
  | none => none
  | some pd =>
    let notificationColor := (truthyOpt env.settingsColor).getD "#36a64f"
    let message := projectMessageText user e.action pd.name
    match env.appUser with
    | none => none
    | some sender =>
      some {
        roomId := roomId
        sender := sender
        text := message
        attachTitle := pd.name
        attachLink := "https://app.asana.com/0/" ++ projectId
        attachText := pd.notes
        color := notificationColor
        fields := [
          ("Status", if pd.archived then "Archived" else "Active"),
          ("Owner", match pd.owner with | some o => o.name | none => "No owner"),
          ("Workspace",
            match pd.workspace with | some w => w.name | none => "Unknown")] }

/-- `processStoryEvent`: fetches the story, then the related task; aborts when
either fetch fails; the actor here is the event user's name (or "Someone"). -/
def processStoryEvent (env : Env) (e : Event) (roomId : String) : Option ChatMessage :=
  let gid := (e.resource.map Resource.gid).getD ""
  match env.storyDetails gid with
  | none => none
  | some story =>
    match story.resource with
    | none => none
    | some res =>
      let taskId := res.gid
      match env.taskDetails taskId with
      | none => none
      | some td =>
        let user := match e.user with | some u => u.name | none => "Someone"
        let message := "💬 " ++ user ++ " commented on task: *" ++ td.name ++ "*"
        match env.appUser with
        | none => none
        | some sender =>
          some {
            roomId := roomId
            sender := sender
            text := message
            attachTitle := td.name
            attachLink := "https://app.asana.com/0/" ++
              (match td.projects with | p :: _ => p.gid | [] => "") ++ "/" ++ taskId
            attachText := story.text
            color := (truthyOpt env.settingsColor).getD "#36C5F0"
            fields := [
              ("Task", td.name),
              ("Status", if td.completed then "Completed" else "Incomplete")] }

/-- `processSectionEvent`: posts a section notification; the project name
degrades to "Unknown Project" when the parent is not a project or its detail
fetch fails. -/
def processSectionEvent (env : Env) (e : Event) (roomId : String) : Option ChatMessage :=
  let user := match e.user with | some u => u.name | none => "Someone"
  let message :=
    if e.action == "added" then "📋 " ++ user ++ " created a new section in the project"
    else if e.action == "changed" then "📋 " ++ user ++ " updated a section in the project"
    else if e.action == "removed" then "🗑️ " ++ user ++ " removed a section from the project"
    else "📋 Section was " ++ e.action
  let pInfo : String × String :=
    match e.parent with
    | some p =>
      if p.gid != "" && p.resource_type == "project" then
        match env.projectDetails p.gid with
        | some pd => (pd.name, p.gid)
        | none => ("Unknown Project", "")
      else ("Unknown Project", "")
    | none => ("Unknown Project", "")
  match env.appUser with
  | none => none
  | some sender =>
    some {
      roomId := roomId
      sender := sender
      text := message
      attachTitle := pInfo.1
      attachLink := if pInfo.2 != "" then "https://app.asana.com/0/" ++ pInfo.2 else ""
      attachText := message
      color := (truthyOpt env.settingsColor).getD "#36C5F0"
      fields := [] }

/-- `processEvent`: dispatch on `resource.resource_type`; unhandled types post
nothing. -/
def processEventMsg (env : Env) (e : Event) (roomId : String) : Option ChatMessage :=
  let resourceType := (e.resource.map Resource.resource_type).getD ""
  if resourceType == "task" then processTaskEvent env e roomId
  else if resourceType == "project" then processProjectEvent env e roomId
  else if resourceType == "story" then processStoryEvent env e roomId
  else if resourceType == "section" then processSectionEvent env e roomId
  else none

/-- Step 2 of `findWebhookConfigByResourceId`: `resource_webhook_map_<id>`
gives a webhook id, and `webhook_<webhookId>` gives the mapping; the result
object carries that mapping's room id and the mapped webhook id. -/
def indirectWebhookConfig (s : PersistState) (resourceId : String) : Option KVRecord :=
  match (readMisc s ("resource_webhook_map_" ++ resourceId)).bind
      (fun r => truthyOpt r.webhookId) with
  | none => none
  | some w =>
    match readMisc s ("webhook_" ++ w) with
    | some cfg =>
      if truthy cfg.roomId then some { roomId := cfg.roomId, webhookId := some w }
      else none
    | none => none

/-- `findWebhookConfigByResourceId`: the record under `webhook_<resourceId>`
when it has a truthy room id, else the indirection of `indirectWebhookConfig`. -/
def findWebhookConfigByResourceId (s : PersistState) (resourceId : String) :
    Option KVRecord :=
  match readMisc s ("webhook_" ++ resourceId) with
  | some directConfig =>
    if truthy directConfig.roomId then some directConfig
    else indirectWebhookConfig s resourceId
  | none => indirectWebhookConfig s resourceId

/-- The filter several fallbacks apply: a record with a truthy `roomId` whose
`id` property starts with `webhook_`. -/
def isWebhookConfigRecord (r : KVRecord) : Bool :=
  truthy r.roomId &&
    (match r.recId with | some i => i.startsWith "webhook_" | none => false)

/-- `checkIfAnyConfigExists`: some MISC record passes `isWebhookConfigRecord`. -/
def checkIfAnyConfigExists (s : PersistState) : Bool :=
  ((readAllMisc s).filter isWebhookConfigRecord).length > 0

/-- The room scan of `createWebhookConfigIfNeeded`: the first ROOM-model record
with a truthy `roomId` naming a room that exists. -/
def firstExistingRoomFromRoomRecs (env : Env) (s : PersistState) : Option String :=
  (((readAllRoomRecs s).filterMap (fun r => truthyOpt r.roomId)).find? (roomExists env))

/-- `saveWebhookConfig`: persist an auto-created mapping under
`webhook_<resourceId>` (resource id from the event's resource, else its
webhook, else a timestamp id) and return the room id. -/
def saveWebhookConfig (env : Env) (e : Event) (roomId : String) (s : PersistState) :
    String × PersistState :=
  let resourceId :=
    match truthyOpt (e.resource.map Resource.gid) with
    | some g => g
    | none =>
      match truthyOpt (e.webhook.map Resource.gid) with
      | some g => g
      | none => "auto_" ++ toString env.nowMs
  let configData : KVRecord :=
    { roomId := some roomId, resourceId := some resourceId,
      autoCreated := true, createdAt := some env.nowMs }
  (roomId, createMisc s ("webhook_" ++ resourceId) configData)

/-- `createWebhookConfigIfNeeded`: pick the `general` room, else the first
existing ROOM-record room; when one is found, store the currently selectable
auth token as `admin_token` (when any) and save an auto-created config; `none`
when no room could be found (no writes in that case). -/
def createWebhookConfigIfNeeded (env : Env) (s : PersistState) (e : Event) :
    Option (String × PersistState) :=
  let roomFound :=
    match env.generalRoom with
    | some g => some g
    | none => firstExistingRoomFromRoomRecs env s
  match roomFound with
  | none => none
  | some targetRoom =>
    let s1 :=
      match getAuthToken env s none with
      | some tok => if tok != "" then createMisc s "admin_token" { access_token := some tok } else s
      | none => s
    some (saveWebhookConfig env e targetRoom s1)

/-- The auto-configuration step at the top of `processEvents`: when the batch
is non-empty and `checkIfAnyConfigExists` is false, try to auto-create a
config; the step yields a room only when the auto-created config's room
exists, and always yields the (possibly extended) state. -/
def autoStep (env : Env) (s : PersistState) (uniqueEvents : List Event) :
    PersistState × Option String :=
  match uniqueEvents with
  | [] => (s, none)
  | e0 :: _ =>
    if checkIfAnyConfigExists s then (s, none)
    else
      match createWebhookConfigIfNeeded env s e0 with
      | none => (s, none)
      | some (roomId, s1) =>
        if roomExists env roomId then (s1, some roomId) else (s1, none)

/-- The `webhook_<webhookId>` direct-config branch of `processEvents`, applied
to the first event of the batch. -/
def batchWebhookRoute (env : Env) (s : PersistState) (e0 : Event) : Option String :=
  match truthyOpt (e0.webhook.map Resource.gid) with
  | none => none
  | some w =>
    match readMisc s ("webhook_" ++ w) with
    | none => none
    | some cfg =>
      match truthyOpt cfg.roomId with
      | none => none
      | some rid => if roomExists env rid then some rid else none

/-- Resolve one id through `findWebhookConfigByResourceId` to an existing room. -/
def resolvedRoomFor (env : Env) (s : PersistState) (rid : String) : Option String :=
  match findWebhookConfigByResourceId s rid with
  | some cfg =>
    match truthyOpt cfg.roomId with
    | some room => if roomExists env room then some room else none
    | none => none
  | none => none

/-- The resource-id branch of `processEvents` on the first event: its resource
id, then (still inside the same guard) its parent id. -/
def batchResourceRoute (env : Env) (s : PersistState) (e0 : Event) : Option String :=
  match truthyOpt (e0.resource.map Resource.gid) with
  | none => none
  | some rid =>
    match resolvedRoomFor env s rid with
    | some room => some room
    | none =>
      match truthyOpt (e0.parent.map Resource.gid) with
      | none => none
      | some pid => resolvedRoomFor env s pid

/-- The batch-level resolution of `processEvents` through the first event:
webhook-id direct config, then resource id, then parent id. -/
def batchResolve (env : Env) (s : PersistState) (e0 : Event) : Option String :=
  (batchWebhookRoute env s e0).orElse fun _ => batchResourceRoute env s e0

/-- The `sort(...)[0]` of the recent-room fallback: the first ROOM-model record
with the greatest `createdAt` (missing timestamps count as 0; the stable sort
keeps the earliest among ties first). -/
def mostRecentRoomRec (s : PersistState) : Option KVRecord :=
  match readAllRoomRecs s with
  | [] => none
  | r :: rest =>
    some (rest.foldl
      (fun best x => if (x.createdAt.getD 0) > (best.createdAt.getD 0) then x else best) r)

/-- The recent-room fallback of `processEvents`: the most recent ROOM record,
when it has a truthy `roomId` naming an existing room. -/
def recentRoomRoute (env : Env) (s : PersistState) : Option String :=
  match mostRecentRoomRec s with
  | none => none
  | some r =>
    match truthyOpt r.roomId with
    | none => none
    | some rid => if roomExists env rid then some rid else none

/-- The first MISC record passing `isWebhookConfigRecord`. -/
def firstValidWebhookConfig (s : PersistState) : Option KVRecord :=
  ((readAllMisc s).filter isWebhookConfigRecord).head?

/-- `findAnyProjectWebhookAndProcess`, reduced to the room it selects: the
first valid webhook-config record's room when it exists, else the first
ROOM-record room that exists. -/
def findAnyProjectWebhookRoom (env : Env) (s : PersistState) : Option String :=
  let viaConfig :=
    match firstValidWebhookConfig s with
    | some cfg =>
      match truthyOpt cfg.roomId with
      | some rid => if roomExists env rid then some rid else none
      | none => none
    | none => none
  match viaConfig with
  | some rid => some rid
  | none => ((readAllRoomRecs s).filterMap (fun r => truthyOpt r.roomId)).find? (roomExists env)

/-- `findAndProcessProjectWebhook`, reduced to the room it selects: only for
task resources; the event's webhook id through the resolver, else — via the
task detail fetch — the first owning project that resolves to an existing
room; when the fetch fails, `findAnyProjectWebhookRoom`; when the task has no
projects, nothing. -/
def projectWebhookRoom (env : Env) (s : PersistState) (e : Event) : Option String :=
  if (e.resource.map Resource.resource_type).getD "" != "task" then none
  else
    let viaWebhook :=
      match truthyOpt (e.webhook.map Resource.gid) with
      | some w => resolvedRoomFor env s w
      | none => none
    match viaWebhook with
    | some rid => some rid
    | none =>
      let gid := (e.resource.map Resource.gid).getD ""
      match env.taskDetails gid with
      | none => findAnyProjectWebhookRoom env s
      | some td =>
        if td.projects.isEmpty then none
        else (td.projects.filterMap (fun p => resolvedRoomFor env s p.gid)).head?

/-- The per-event resolution of the final loop of `processEvents`: the event's
resource id, its parent id, the first valid webhook-config record, then
`findAndProcessProjectWebhook`. -/
def perEventRoute (env : Env) (s : PersistState) (e : Event) : Option String :=
  let viaResource :=
    match truthyOpt (e.resource.map Resource.gid) with
    | some rid => resolvedRoomFor env s rid
    | none => none
  match viaResource with
  | some room => some room
  | none =>
    let viaParent :=
      match truthyOpt (e.parent.map Resource.gid) with
      | some pid => resolvedRoomFor env s pid
      | none => none
    match viaParent with
    | some room => some room
    | none =>
      let viaFirstConfig :=
        match firstValidWebhookConfig s with
        | some cfg =>
          match truthyOpt cfg.roomId with
          | some rid => if roomExists env rid then some rid else none
          | none => none
        | none => none
      match viaFirstConfig with
      | some room => some room
      | none => projectWebhookRoom env s e

/-- `processEvents`: dedupe, auto-configuration step, the three batch-level
routes through the first event (each of which hands EVERY deduplicated event
to the same room and returns), the recent-room fallback (likewise), and
finally the per-event loop. Yields the final persistence state and the list of
(event, room id) pairs handed to `processEvent`. -/
def processEvents (env : Env) (s : PersistState) (events : List Event) :
    PersistState × List (Event × String) :=
  let uniqueEvents := deduplicateEvents events
  match autoStep env s uniqueEvents with
  | (s1, some rid) => (s1, uniqueEvents.map (fun e => (e, rid)))
  | (s1, none) =>
    match uniqueEvents.head?.bind (fun e0 => batchResolve env s1 e0) with
    | some rid => (s1, uniqueEvents.map (fun e => (e, rid)))
    | none =>
      match recentRoomRoute env s1 with
      | some rid => (s1, uniqueEvents.map (fun e => (e, rid)))
      | none =>
        (s1, uniqueEvents.filterMap (fun e => (perEventRoute env s1 e).map (fun r => (e, r))))

/-- `processEvents` composed with `processEvent`: the chat messages actually
posted for a batch, with the final persistence state. -/
def processEventsMessages (env : Env) (s : PersistState) (events : List Event) :
    PersistState × List ChatMessage :=
  let result := processEvents env s events
  (result.1, result.2.filterMap (fun d => processEventMsg env d.1 d.2))

/-- The endpoint's `post`: handshake short-circuit, then signature
verification (401 `{error:'Invalid webhook signature'}` on failure), then
event processing, then 200 `{success:true}`. -/
def post (env : Env) (s : PersistState) (req : Request) :
    Response × PersistState × List ChatMessage :=
  match handleWebhookHandshake req s with
  | some (resp, s1) => (resp, s1, [])
  | none =>
    if ! verifyWebhookSignature env req s then
      ({ status := 401, body := RespBody.err "Invalid webhook signature" }, s, [])
    else
      if req.content.events.isEmpty then
        ({ status := 200, body := RespBody.success }, s, [])
      else
        let result := processEventsMessages env s req.content.events
        ({ status := 200, body := RespBody.success }, result.1, result.2)

/-- No room can come out of the fallback paths: there is no `general` room, no
ROOM-model record, and no MISC record passing the `webhook_`-id filter. -/
def noFallbackRooms (env : Env) (s : PersistState) : Bool :=
  env.generalRoom.isNone && s.roomRecs.isEmpty &&
    (readAllMisc s).all (fun r => ! isWebhookConfigRecord r)

/-- None of the lookup strategies resolves this event to an existing room: not
its webhook id's direct config, not its resource id or parent id through the
resolver, not its webhook id through the resolver, and not any owning project
reported by the task detail fetch. -/
def eventUnresolvable (env : Env) (s : PersistState) (e : Event) : Bool :=
  (batchWebhookRoute env s e).isNone &&
  (match truthyOpt (e.resource.map Resource.gid) with
   | some rid => (resolvedRoomFor env s rid).isNone
   | none => true) &&
  (match truthyOpt (e.parent.map Resource.gid) with
   | some pid => (resolvedRoomFor env s pid).isNone
   | none => true) &&
  (match truthyOpt (e.webhook.map Resource.gid) with
   | some w => (resolvedRoomFor env s w).isNone
   | none => true) &&
  (match env.taskDetails ((e.resource.map Resource.gid).getD "") with
   | some td => td.projects.all (fun p => (resolvedRoomFor env s p.gid).isNone)
   | none => true)

/-- The title line a dispatched task notification carries, as a function of
the environment and the event alone (empty when the fetch fails, in which case
nothing is dispatched anyway). -/
def taskActorLine (env : Env) (e : Event) : String :=
  match env.taskDetails ((e.resource.map Resource.gid).getD "") with
  | some td =>
    taskMessageText "Zilong Xue" e.action td.name
      (match td.assignee with | some a => a.name | none => "someone")
  | none => ""

/-- The title line a dispatched project notification carries. -/
def projectActorLine (env : Env) (e : Event) : String :=
  match env.projectDetails ((e.resource.map Resource.gid).getD "") with
  | some pd => projectMessageText "Zilong Xue" e.action pd.name
  | none => ""

/-- C2 example 1: the store the webhook-create command leaves for a mapping
webhook W7 / resource 123 / room R1 (three records: by webhook id, by resource
id, and the resource→webhook indirection). -/
def stC2a : PersistState :=
  { misc := [
      ("webhook_W7", { webhookId := some "W7", resourceId := some "123", roomId := some "R1" }),
      ("resource_123", { webhookId := some "W7", resourceId := some "123", roomId := some "R1" }),
      ("resource_webhook_map_123", { webhookId := some "W7" })] }

/-- C2 example 1: environment in which only room R1 exists. -/
def envC2a : Env := { rooms := ["R1"] }

/-- C2 example 1: an event on resource 123. -/
def evC2a : Event :=
  { action := "changed", resource := some { gid := "123", resource_type := "project" } }

/-- C2 example 2: the command's store for a mapping on resource 456 → room R2. -/
def stC2b : PersistState :=
  { misc := [
      ("webhook_W8", { webhookId := some "W8", resourceId := some "456", roomId := some "R2" }),
      ("resource_456", { webhookId := some "W8", resourceId := some "456", roomId := some "R2" }),
      ("resource_webhook_map_456", { webhookId := some "W8" })] }

/-- C2 example 2: environment in which only room R2 exists. -/
def envC2b : Env := { rooms := ["R2"] }

/-- C2 example 2: an event on unmapped resource 999 whose parent is 456. -/
def evC2b : Event :=
  { action := "added", resource := some { gid := "999", resource_type := "task" },
    parent := some { gid := "456", resource_type := "project" } }

/-- C2 witness store: a direct record under `webhook_5` with a room id. -/
def stC2w : PersistState :=
  { misc := [("webhook_5", { roomId := some "R", webhookId := some "5" })] }

/-- C9: environment with a `general` room G and a room R1. -/
def envC9 : Env := { rooms := ["G", "R1"], generalRoom := some "G", appUser := some "bot" }

/-- C9: a store holding one mapping, webhook W → room R1 (as the command
persists it: no `id` property on the record). -/
def stC9 : PersistState :=
  { misc := [("webhook_W", { webhookId := some "W", resourceId := some "P7",
                             roomId := some "R1" })] }

/-- C9: a task event carrying webhook id W. -/
def evC9 : Event :=
  { action := "changed", resource := some { gid := "T1", resource_type := "task" },
    webhook := some { gid := "W" } }

/-- C9 witness: same store, but an environment with no `general` room. -/
def envC9w : Env := { rooms := ["R1"] }

/-- C1: environment whose HMAC oracle digests everything to "aa", with a
`general` room and a working task-detail fetch. -/
def envC1 : Env :=
  { hmacSha256Hex := fun _ _ => "aa", rooms := ["G"], generalRoom := some "G",
    appUser := some "bot", taskDetails := fun _ => some { name := "T42" } }

/-- C1: a store holding one stored secret, "sec". -/
def stC1 : PersistState :=
  { misc := [("asana_webhook_secret_latest", { secret := some "sec" })] }

/-- C1: a non-handshake POST whose signature header "00" matches no stored
secret's digest ("aa"). -/
def reqC1 : Request :=
  { headers := [("x-hook-signature", "00")],
    content := { events := [{ action := "added",
                              resource := some { gid := "42", resource_type := "task" } }],
                 serialized := "payload-bytes" } }

/-- C4: environment whose task-detail fetch always fails. -/
def envC4 : Env := { appUser := some "bot" }

/-- C4: a task event. -/
def evC4 : Event :=
  { action := "added", resource := some { gid := "T1", resource_type := "task" } }

/-- C4 witness: the fetch succeeds but due date and assignee are missing. -/
def envC4w : Env := { appUser := some "bot", taskDetails := fun _ => some { name := "T" } }

/-- C5: environment with a `general` room and a working task-detail fetch
reporting no owning projects. -/
def envC5 : Env :=
  { rooms := ["G"], generalRoom := some "G", appUser := some "bot",
    taskDetails := fun _ => some { name := "T9" } }

/-- C5: a task event on a resource no record maps. -/
def evC5 : Event :=
  { action := "added", resource := some { gid := "999", resource_type := "task" } }

/-- C5 witness: an environment with no rooms at all. -/
def envC5w : Env := { appUser := some "bot" }

/-- C6 witness: a handshake POST with secret abc123 and webhook id W1. -/
def reqC6 : Request :=
  { headers := [("x-hook-secret", "abc123")], content := { webhook := some "W1" } }

/-- C8: environment in which the OAuth service yields token A for the app user. -/
def envC8 : Env := { appUser := some "bot", oauthUserToken := some "A" }

/-- C8: a store holding webhook-scoped token B for webhook W. -/
def stC8 : PersistState :=
  { misc := [("webhook_token_W", { access_token := some "B" })] }

/-- C8 witness: a store holding webhook-scoped token T1 for webhook V. -/
def stC8w : PersistState :=
  { misc := [("webhook_token_V", { access_token := some "T1" })] }

/-- C10: environment with working task and project detail fetches. -/
def envC10 : Env :=
  { appUser := some "bot", taskDetails := fun _ => some { name := "T" },
    projectDetails := fun _ => some { name := "P" } }

/-- C10: a completed-task event carrying a user named Alice. -/
def evC10 : Event :=
  { action := "completed", user := some { gid := "u1", name := "Alice" },
    resource := some { gid := "5", resource_type := "task" } }

theorem dedupGo_sublist (E : List Event) : ∀ seen, (dedupGo E seen).Sublist E := by
  induction E with
  | nil => intro seen; simp [dedupGo]
  | cons e rest ih =>
    intro seen
    simp only [dedupGo]
    by_cases h : eventKey e ∈ seen
    · simp only [if_pos h]
      exact (ih seen).cons e
    · simp only [if_neg h]
      exact (ih (eventKey e :: seen)).cons₂ e

theorem dedupGo_keys (E : List Event) :
    ∀ seen, ((dedupGo E seen).map eventKey).Nodup ∧
      ∀ k ∈ (dedupGo E seen).map eventKey, k ∉ seen := by
  induction E with
  | nil => intro seen; simp [dedupGo]
  | cons e rest ih =>
    intro seen
    simp only [dedupGo]
    by_cases h : eventKey e ∈ seen
    · simpa only [if_pos h] using ih seen
    · simp only [if_neg h, List.map_cons, List.nodup_cons, List.mem_cons]
      obtain ⟨hnd, hout⟩ := ih (eventKey e :: seen)
      refine ⟨⟨fun hmem => ?_, hnd⟩, ?_⟩
      · exact (hout _ hmem) (List.mem_cons_self _ _)
      · rintro k (rfl | hk)
        · exact h
        · exact fun hks => (hout k hk) (List.mem_cons_of_mem _ hks)

theorem dedupGo_of_fresh (E : List Event) :
    ∀ seen, (E.map eventKey).Nodup → (∀ k ∈ E.map eventKey, k ∉ seen) →
      dedupGo E seen = E := by
  induction E with
  | nil => intro seen _ _; rfl
  | cons e rest ih =>
    intro seen hnd hout
    simp only [List.map_cons, List.nodup_cons] at hnd
    have hknot : eventKey e ∉ seen := hout _ (by simp)
    simp only [dedupGo, if_neg hknot]
    congr 1
    refine ih _ hnd.2 ?_
    intro k hk
    simp only [List.mem_cons]
    rintro (rfl | hks)
    · exact hnd.1 hk
    · exact hout k (by simp [hk]) hks

theorem deduplicateEvents_idem (E : List Event) :
    deduplicateEvents (deduplicateEvents E) = deduplicateEvents E := by
  by_cases h : E.length ≤ 1
  · simp [deduplicateEvents, h]
  · simp only [deduplicateEvents, if_neg h]
    by_cases h2 : (dedupGo E []).length ≤ 1
    · simp [h2]
    · simp only [if_neg h2]
      obtain ⟨hnd, _⟩ := dedupGo_keys E []
      exact dedupGo_of_fresh _ [] hnd (by simp)

theorem deduplicateEvents_sublist (E : List Event) : (deduplicateEvents E).Sublist E := by
  by_cases h : E.length ≤ 1
  · simp [deduplicateEvents, h]
  · simpa only [deduplicateEvents, if_neg h] using dedupGo_sublist E []

/-- C7: `deduplicateEvents` is an order-preserving selection of its input (a
sublist, so first occurrences survive in input order), it is idempotent, and it
never lengthens its input. Purity holds by construction: the embedding of the
function is a pure Lean function of the event list alone. -/
theorem C7_dedupe_algebra (E : List Event) :
    (deduplicateEvents E).Sublist E ∧
    deduplicateEvents (deduplicateEvents E) = deduplicateEvents E ∧
    (deduplicateEvents E).length ≤ E.length :=
  ⟨deduplicateEvents_sublist E, deduplicateEvents_idem E,
   (deduplicateEvents_sublist E).length_le⟩

theorem append_colon_inj : ∀ (a₁ a₂ r₁ r₂ : List Char),
    (∀ c ∈ a₁, c ≠ ':') → (∀ c ∈ a₂, c ≠ ':') →
    a₁ ++ ':' :: r₁ = a₂ ++ ':' :: r₂ → a₁ = a₂ ∧ r₁ = r₂ := by
  intro a₁
  induction a₁ with
  | nil =>
    intro a₂ r₁ r₂ _ h2 h
    cases a₂ with
    | nil => simpa using h
    | cons b bs =>
      simp only [List.nil_append, List.cons_append, List.cons.injEq] at h
      exact absurd h.1.symm (h2 b (by simp))
  | cons a as ih =>
    intro a₂ r₁ r₂ h1 h2 h
    cases a₂ with
    | nil =>
      simp only [List.cons_append, List.nil_append, List.cons.injEq] at h
      exact absurd h.1 (h1 a (by simp))
    | cons b bs =>
      simp only [List.cons_append, List.cons.injEq] at h
      obtain ⟨rfl, htl⟩ := h
      obtain ⟨heq, hr⟩ := ih bs r₁ r₂ (fun c hc => h1 c (List.mem_cons_of_mem _ hc))
        (fun c hc => h2 c (List.mem_cons_of_mem _ hc)) htl
      exact ⟨by rw [heq], hr⟩

theorem colonFree_chars {s : String} (h : colonFree s = true) : ∀ c ∈ s.data, c ≠ ':' := by
  intro c hc
  have := List.all_eq_true.mp h c hc
  simpa using this

theorem joinKey_data (u a r c : String) :
    (joinKey (u, a, r, c)).data =
      u.data ++ ':' :: (a.data ++ ':' :: (r.data ++ (if c == "" then [] else ':' :: c.data))) := by
  have hcolon : (":" : String).data = [':'] := rfl
  by_cases hc : c == ""
  · simp [joinKey, hc, String.data_append, hcolon]
  · simp [joinKey, hc, String.data_append, hcolon]

theorem joinKey_inj {t₁ t₂ : String × String × String × String}
    (h₁ : tupleColonFree t₁ = true) (h₂ : tupleColonFree t₂ = true)
    (h : joinKey t₁ = joinKey t₂) : t₁ = t₂ := by
  obtain ⟨u₁, a₁, r₁, c₁⟩ := t₁
  obtain ⟨u₂, a₂, r₂, c₂⟩ := t₂
  simp only [tupleColonFree, Bool.and_eq_true] at h₁ h₂
  obtain ⟨⟨⟨hu₁, ha₁⟩, hr₁⟩, hc₁⟩ := h₁
  obtain ⟨⟨⟨hu₂, ha₂⟩, hr₂⟩, hc₂⟩ := h₂
  have hd := congrArg String.data h
  rw [joinKey_data, joinKey_data] at hd
  obtain ⟨hu, hd⟩ := append_colon_inj _ _ _ _ (colonFree_chars hu₁) (colonFree_chars hu₂) hd
  obtain ⟨ha, hd⟩ := append_colon_inj _ _ _ _ (colonFree_chars ha₁) (colonFree_chars ha₂) hd
  have hrc : r₁ = r₂ ∧ c₁ = c₂ := by
    by_cases hc₁e : c₁ == ""
    · by_cases hc₂e : c₂ == ""
      · rw [if_pos hc₁e, if_pos hc₂e, List.append_nil, List.append_nil] at hd
        exact ⟨String.ext hd, by
          rw [String.ext_iff]
          rw [show c₁ = "" from by simpa using hc₁e, show c₂ = "" from by simpa using hc₂e]⟩
      · rw [if_pos hc₁e, if_neg hc₂e, List.append_nil] at hd
        exact absurd rfl ((colonFree_chars hr₁) ':' (by rw [hd]; simp))
    · by_cases hc₂e : c₂ == ""
      · rw [if_neg hc₁e, if_pos hc₂e, List.append_nil] at hd
        exact absurd rfl ((colonFree_chars hr₂) ':' (by rw [← hd]; simp))
      · rw [if_neg hc₁e, if_neg hc₂e] at hd
        obtain ⟨hr, hc⟩ := append_colon_inj _ _ _ _ (colonFree_chars hr₁) (colonFree_chars hr₂) hd
        exact ⟨String.ext hr, String.ext hc⟩
  exact by
    rw [String.ext hu, String.ext ha, hrc.1, hrc.2]

theorem dedupChangeField_eq_spec (e : Event) (ha : e.action ≠ "") :
    dedupChangeField e = specChangeField e := by
  have hb : (e.action == "") = false := by simpa using ha
  simp only [dedupChangeField, specChangeField, hb, Bool.false_eq_true, if_false]
  by_cases hch : (e.action == "changed") = true
  · simp only [hch, if_true]
    cases e.change with
    | none => rfl
    | some c =>
      by_cases hf : (c.field == "") = true
      · have hfe : c.field = "" := by simpa using hf
        simp [hfe]
      · simp only [bne, hf, Bool.not_false, if_true]
  · simp [hch]

theorem eventKey_eq_joinKey (e : Event) (ha : e.action ≠ "") :
    eventKey e = joinKey (specKey e) := by
  have hb : (e.action == "") = false := by simpa using ha
  simp only [eventKey, joinKey, specKey, hb, Bool.false_eq_true, if_false,
    dedupChangeField_eq_spec e ha]

theorem specKey_colonFree {e : Event} (h : eventColonFree e = true) :
    tupleColonFree (specKey e) = true := by
  simp only [eventColonFree, Bool.and_eq_true] at h
  simp only [tupleColonFree, specKey, Bool.and_eq_true]
  exact ⟨⟨⟨h.1.1.1.1, h.1.1.2⟩, h.1.2⟩, h.2⟩

theorem eventColonFree_action_ne {e : Event} (h : eventColonFree e = true) :
    e.action ≠ "" := by
  simp only [eventColonFree, Bool.and_eq_true] at h
  simpa using h.1.1.1.2

theorem dedupGo_eq_specGo (E : List Event) :
    ∀ (seenT : List (String × String × String × String)),
      (∀ e ∈ E, eventColonFree e = true) →
      (∀ t ∈ seenT, tupleColonFree t = true) →
      dedupGo E (seenT.map joinKey) = specDedupGo E seenT := by
  induction E with
  | nil => intro seenT _ _; rfl
  | cons e rest ih =>
    intro seenT hE hseen
    have he : eventColonFree e = true := hE e (by simp)
    have hkey : eventKey e = joinKey (specKey e) :=
      eventKey_eq_joinKey e (eventColonFree_action_ne he)
    have hmem : (eventKey e ∈ seenT.map joinKey) ↔ specKey e ∈ seenT := by
      rw [hkey]
      constructor
      · intro hm
        obtain ⟨t, ht, heq⟩ := List.mem_map.mp hm
        have ht2 : t = specKey e := joinKey_inj (hseen t ht) (specKey_colonFree he) heq
        rwa [← ht2]
      · intro hm
        exact List.mem_map.mpr ⟨_, hm, rfl⟩
    simp only [dedupGo, specDedupGo]
    by_cases hs : specKey e ∈ seenT
    · rw [if_pos (hmem.mpr hs), if_pos hs]
      exact ih seenT (fun x hx => hE x (List.mem_cons_of_mem _ hx)) hseen
    · rw [if_neg (fun hh => hs (hmem.mp hh)), if_neg hs]
      congr 1
      have hlist : eventKey e :: seenT.map joinKey = (specKey e :: seenT).map joinKey := by
        simp [hkey]
      rw [hlist]
      refine ih (specKey e :: seenT) (fun x hx => hE x (List.mem_cons_of_mem _ hx)) ?_
      intro t ht
      rcases List.mem_cons.mp ht with rfl | ht2
      · exact specKey_colonFree he
      · exact hseen t ht2

/-- C3 (amended): on batches whose user gids, actions, resource gids and
normalized change fields are colon-free strings with a non-empty action — in
particular on all real Asana payloads, whose gids are numeric — dedup keeps
exactly the first event for each key tuple (user.gid or "unknown", action,
resource.gid or "unknown", normalizedChangeField), with `due_on`/`due_at`
collapsed; without that proviso the code's colon-joined string key can merge
distinct tuples. -/
theorem C3_joined_key_dedup (E : List Event) (h : ∀ e ∈ E, eventColonFree e = true) :
    deduplicateEvents E = specDedup E := by
  unfold deduplicateEvents specDedup
  by_cases hl : E.length ≤ 1
  · rw [if_pos hl]
    cases E with
    | nil => rfl
    | cons e rest =>
      cases rest with
      | nil => rfl
      | cons f rs => simp at hl
  · rw [if_neg hl]
    simpa using dedupGo_eq_specGo E [] h (by simp)

/-- C3 counterexample: with a colon inside a resource gid, the two events
below have distinct claim-key tuples (("u","changed","r","x") versus
("u","changed","r:x","")) yet the code's joined string key `u:changed:r:x`
coincides, so `deduplicateEvents` drops the second event while the claimed
tuple-keyed dedup keeps both. -/
theorem C3_tuple_key_counterexample :
    deduplicateEvents
        [{ user := some { gid := "u" }, action := "changed",
           resource := some { gid := "r", resource_type := "task" },
           change := some { field := "x" } },
         { user := some { gid := "u" }, action := "changed",
           resource := some { gid := "r:x", resource_type := "task" } }] ≠
      specDedup
        [{ user := some { gid := "u" }, action := "changed",
           resource := some { gid := "r", resource_type := "task" },
           change := some { field := "x" } },
         { user := some { gid := "u" }, action := "changed",
           resource := some { gid := "r:x", resource_type := "task" } }] := by
  decide

/-- Witness for C3: the spec's own two-event `due_on`/`due_at` batch satisfies
the colon-free proviso and dedupes to exactly its first event. -/
theorem C3_joined_key_dedup_witness :
    (∀ e ∈ [({ user := some { gid := "u1" }, action := "changed",
               resource := some { gid := "t1", resource_type := "task" },
               change := some { field := "due_on" } } : Event),
            { user := some { gid := "u1" }, action := "changed",
              resource := some { gid := "t1", resource_type := "task" },
              change := some { field := "due_at" } }], eventColonFree e = true) ∧
    specDedup
        [{ user := some { gid := "u1" }, action := "changed",
           resource := some { gid := "t1", resource_type := "task" },
           change := some { field := "due_on" } },
         { user := some { gid := "u1" }, action := "changed",
           resource := some { gid := "t1", resource_type := "task" },
           change := some { field := "due_at" } }] =
      [{ user := some { gid := "u1" }, action := "changed",
         resource := some { gid := "t1", resource_type := "task" },
         change := some { field := "due_on" } }] ∧
    deduplicateEvents
        [{ user := some { gid := "u1" }, action := "changed",
           resource := some { gid := "t1", resource_type := "task" },
           change := some { field := "due_on" } },
         { user := some { gid := "u1" }, action := "changed",
           resource := some { gid := "t1", resource_type := "task" },
           change := some { field := "due_at" } }] =
      [{ user := some { gid := "u1" }, action := "changed",
         resource := some { gid := "t1", resource_type := "task" },
         change := some { field := "due_on" } }] :=
  ⟨by decide, by decide, (C3_joined_key_dedup _ (by decide)).trans (by decide)⟩

/-- C2: `findWebhookConfigByResourceId` first consults the direct record under
`webhook_<resourceId>` (returned whenever it carries a truthy room id) and on
a miss falls back to the `resource_webhook_map_<resourceId>` →
`webhook_<webhookId>` indirection; concretely, with the records the
webhook-create command persists, an event on resource 123 mapped to room R1 is
routed by `processEvents` to R1, and an event on unmapped resource 999 with
parent 456 is routed to the room R2 mapped to 456. -/
theorem C2_resolver_order :
    (∀ (s : PersistState) (rid : String) (cfg : KVRecord),
      readMisc s ("webhook_" ++ rid) = some cfg → truthy cfg.roomId = true →
      findWebhookConfigByResourceId s rid = some cfg) ∧
    (∀ (s : PersistState) (rid : String),
      (∀ cfg, readMisc s ("webhook_" ++ rid) = some cfg → truthy cfg.roomId = false) →
      findWebhookConfigByResourceId s rid = indirectWebhookConfig s rid) ∧
    processEvents envC2a stC2a [evC2a] = (stC2a, [(evC2a, "R1")]) ∧
    processEvents envC2b stC2b [evC2b] = (stC2b, [(evC2b, "R2")]) := by
  refine ⟨?_, ?_, by decide, by decide⟩
  · intro s rid cfg h ht
    simp [findWebhookConfigByResourceId, h, ht]
  · intro s rid h
    cases hread : readMisc s ("webhook_" ++ rid) with
    | none => simp [findWebhookConfigByResourceId, hread]
    | some cfg => simp [findWebhookConfigByResourceId, hread, h cfg hread]

/-- Witness for C2: the two universally quantified clauses applied at concrete
stores. -/
theorem C2_resolver_order_witness :
    findWebhookConfigByResourceId stC2w "5" =
      some { roomId := some "R", webhookId := some "5" } ∧
    findWebhookConfigByResourceId stC2a "123" = indirectWebhookConfig stC2a "123" :=
  ⟨C2_resolver_order.1 stC2w "5" _ rfl rfl,
   C2_resolver_order.2.1 stC2a "123" (fun cfg hcfg => by simp [readMisc, stC2a] at hcfg)⟩

/-- C6: a POST with a truthy `X-Hook-Secret` header is answered HTTP 200 with
the same value echoed in the `X-Hook-Secret` response header; no message is
dispatched; the secret is persisted as the latest stored secret, and also
keyed by the webhook id when the content carries one. -/
theorem C6_handshake (env : Env) (s : PersistState) (req : Request) (hs : String)
    (h : truthyOpt (lookupField req.headers "x-hook-secret") = some hs) :
    (post env s req).1 =
      { status := 200, headers := [("X-Hook-Secret", hs)], body := RespBody.empty } ∧
    (post env s req).2.2 = [] ∧
    ("asana_webhook_secret_latest", ({ secret := some hs } : KVRecord)) ∈
      (post env s req).2.1.misc ∧
    (∀ w, truthyOpt req.content.webhook = some w →
      ("asana_webhook_secret_" ++ w, ({ secret := some hs } : KVRecord)) ∈
        (post env s req).2.1.misc) := by
  have hpost : post env s req =
      ({ status := 200, headers := [("X-Hook-Secret", hs)], body := RespBody.empty },
       createMisc
         (match truthyOpt req.content.webhook with
          | some w => createMisc s ("asana_webhook_secret_" ++ w) { secret := some hs }
          | none => s)
         "asana_webhook_secret_latest" { secret := some hs }, []) := by
    unfold post handleWebhookHandshake
    rw [h]
  rw [hpost]
  refine ⟨rfl, rfl, ?_, ?_⟩
  · simp [createMisc]
  · intro w hw
    rw [hw]
    simp [createMisc]

/-- Witness for C6: the spec's handshake scenario, POST with
`X-Hook-Secret: abc123`. -/
theorem C6_handshake_witness :
    (post {} {} reqC6).1 =
      { status := 200, headers := [("X-Hook-Secret", "abc123")], body := RespBody.empty } ∧
    (post {} {} reqC6).2.2 = [] ∧
    ("asana_webhook_secret_latest", ({ secret := some "abc123" } : KVRecord)) ∈
      (post {} {} reqC6).2.1.misc ∧
    ("asana_webhook_secret_W1", ({ secret := some "abc123" } : KVRecord)) ∈
      (post {} {} reqC6).2.1.misc := by
  have h := C6_handshake {} {} reqC6 "abc123" rfl
  exact ⟨h.1, h.2.1, h.2.2.1, by simpa using h.2.2.2 "W1" rfl⟩

/-- C8 (amended): the token candidates are tried in exactly this order, taking
the first that yields a token: the app user's OAuth token, the OAuth client
token, the webhook-scoped stored token, the first stored record carrying an
access token, the `admin_token` record, and the settings-configured API key. -/
theorem C8_token_order (env : Env) (s : PersistState) (wid : Option String) :
    (∀ t, oauthAppUserToken env = some t → getAuthToken env s wid = some t) ∧
    (oauthAppUserToken env = none →
      ∀ t, truthyOpt env.oauthClientToken = some t → getAuthToken env s wid = some t) ∧
    (oauthAppUserToken env = none → truthyOpt env.oauthClientToken = none →
      ∀ t, webhookStoredToken s wid = some t → getAuthToken env s wid = some t) ∧
    (oauthAppUserToken env = none → truthyOpt env.oauthClientToken = none →
      webhookStoredToken s wid = none →
      ∀ t, firstStoredAccessToken s = some t → getAuthToken env s wid = some t) ∧
    (oauthAppUserToken env = none → truthyOpt env.oauthClientToken = none →
      webhookStoredToken s wid = none → firstStoredAccessToken s = none →
      ∀ t, adminStoredToken s = some t → getAuthToken env s wid = some t) ∧
    (oauthAppUserToken env = none → truthyOpt env.oauthClientToken = none →
      webhookStoredToken s wid = none → firstStoredAccessToken s = none →
      adminStoredToken s = none →
      getAuthToken env s wid = truthyOpt env.settingsApiKey) := by
  unfold getAuthToken
  refine ⟨?_, ?_, ?_, ?_, ?_, ?_⟩ <;> intros <;> simp_all

/-- C8 counterexample: with the OAuth service yielding token A for the app
user and a webhook-scoped stored token B, the code selects A while the claimed
order (webhook-scoped first) selects B. -/
theorem C8_token_order_counterexample :
    getAuthToken envC8 stC8 (some "W") = some "A" ∧
    specTokenOrder envC8 stC8 (some "W") = some "B" ∧
    getAuthToken envC8 stC8 (some "W") ≠ specTokenOrder envC8 stC8 (some "W") := by
  exact ⟨rfl, rfl, by decide⟩

/-- Witness for C8: the webhook-scoped clause applied at a concrete store with
no OAuth tokens. -/
theorem C8_token_order_witness :
    getAuthToken {} stC8w (some "V") = some "T1" :=
  (C8_token_order {} stC8w (some "V")).2.2.1 rfl rfl "T1" rfl

/-- C9 (amended): when the auto-configuration step yields no room and leaves
the state unchanged (as it does whenever no stored record carries both a room
id and a `webhook_`-prefixed `id` property, and no `general` room or
ROOM-record room is found), and the deduplicated batch's first event resolves
to an existing room via its webhook id's direct config or its resource or
parent id, then every deduplicated event is dispatched to that single room and
processing returns. -/
theorem C9_batch_routing (env : Env) (s : PersistState) (events : List Event) (rid : String)
    (h1 : autoStep env s (deduplicateEvents events) = (s, none))
    (h2 : (deduplicateEvents events).head?.bind (fun e0 => batchResolve env s e0) = some rid) :
    processEvents env s events = (s, (deduplicateEvents events).map (fun e => (e, rid))) := by
  unfold processEvents
  simp only [h1, h2]

/-- C9 counterexample: the store maps webhook W to room R1 and the batch's
first (and only) event carries webhook id W, so the claim routes the batch to
R1 — but because the stored mapping has no `id` property,
`checkIfAnyConfigExists` is false, the auto-configuration step fires first,
and the whole batch is dispatched to the `general` room G instead. -/
theorem C9_batch_routing_counterexample :
    batchResolve envC9 stC9 evC9 = some "R1" ∧
    (processEvents envC9 stC9 [evC9]).2 = [(evC9, "G")] ∧
    (processEvents envC9 stC9 [evC9]).2 ≠ [(evC9, "R1")] := by
  exact ⟨rfl, rfl, by decide⟩

/-- Witness for C9: with no `general` room the auto step yields nothing and
the webhook-id route carries the batch to R1. -/
theorem C9_batch_routing_witness :
    autoStep envC9w stC9 (deduplicateEvents [evC9]) = (stC9, none) ∧
    (deduplicateEvents [evC9]).head?.bind (fun e0 => batchResolve envC9w stC9 e0) =
      some "R1" ∧
    processEvents envC9w stC9 [evC9] = (stC9, [(evC9, "R1")]) :=
  ⟨rfl, rfl, (C9_batch_routing envC9w stC9 [evC9] "R1" rfl rfl).trans (by decide)⟩

/-- C1: the code evaluated at the failing input. A non-handshake POST whose
signature header "00" matches no stored secret's HMAC digest (the oracle
digests everything to "aa" and the sole stored secret is "sec") must, per the
claim, be answered 401 with no dispatch and no persistence write — yet the
debugging bypass in `verifyWebhookSignature` answers 200 `{success:true}`,
dispatches a chat message and writes a persistence record. The other two
fail-closed branches of the claim do hold: the same request without its
signature header, and the same request against an empty secret store, are both
answered 401. -/
theorem C1_signature_bypass_eval :
    getAllStoredSecrets envC1 stC1 (getWebhookIdFromRequest reqC1 stC1) = ["sec"] ∧
    envC1.hmacSha256Hex "sec" reqC1.content.serialized ≠ "00" ∧
    (post envC1 stC1 reqC1).1.status = 200 ∧
    (post envC1 stC1 reqC1).1.body = RespBody.success ∧
    (post envC1 stC1 reqC1).2.2.length = 1 ∧
    (post envC1 stC1 reqC1).2.1 ≠ stC1 ∧
    (post envC1 stC1 { reqC1 with headers := [] }).1.status = 401 ∧
    (post envC1 {} reqC1).1.status = 401 :=
  ⟨rfl, by decide, rfl, rfl, rfl, by decide, rfl, rfl⟩

/-- C4 counterexample: with the task detail fetch failing, the task event
produces no message at all — the event is aborted with only a log —
contradicting the claim that a placeholder notification is still dispatched. -/
theorem C4_enrichment_abort_counterexample :
    envC4.taskDetails "T1" = none ∧ processTaskEvent envC4 evC4 "R1" = none :=
  ⟨rfl, rfl⟩

/-- C4 (amended): when the task or project detail fetch fails, the event is
aborted with only a log entry and no message is dispatched; placeholder text
("No due date", "Unassigned") is rendered only when the fetch succeeds but the
individual fields are missing. -/
theorem C4_enrichment_abort (env : Env) (e : Event) (rid : String) :
    (env.taskDetails ((e.resource.map Resource.gid).getD "") = none →
      processTaskEvent env e rid = none) ∧
    (env.projectDetails ((e.resource.map Resource.gid).getD "") = none →
      processProjectEvent env e rid = none) ∧
    (∀ td sender, env.taskDetails ((e.resource.map Resource.gid).getD "") = some td →
      env.appUser = some sender → td.due_on = none → td.assignee = none →
      ∃ m, processTaskEvent env e rid = some m ∧
        ("Due Date", "No due date") ∈ m.fields ∧ ("Assignee", "Unassigned") ∈ m.fields) := by
  refine ⟨?_, ?_, ?_⟩
  · intro h; simp [processTaskEvent, h]
  · intro h; simp [processProjectEvent, h]
  · intro td sender h hau hd ha
    simp only [processTaskEvent, h, hau, hd, ha, truthyOpt]
    exact ⟨_, rfl, by simp, by simp⟩

/-- Witness for C4: fetch succeeding with no due date and no assignee yields a
message carrying both placeholders. -/
theorem C4_enrichment_abort_witness :
    ∃ m, processTaskEvent envC4w evC4 "R9" = some m ∧
      ("Due Date", "No due date") ∈ m.fields ∧ ("Assignee", "Unassigned") ∈ m.fields :=
  (C4_enrichment_abort envC4w evC4 "R9").2.2 { name := "T" } "bot" rfl rfl rfl rfl

theorem unresolvable_batchResolve (env : Env) (s : PersistState) (e : Event)
    (h : eventUnresolvable env s e = true) : batchResolve env s e = none := by
  simp only [eventUnresolvable, Bool.and_eq_true] at h
  obtain ⟨⟨⟨⟨h1, h2⟩, h3⟩, _⟩, _⟩ := h
  have hb : batchWebhookRoute env s e = none := Option.isNone_iff_eq_none.mp h1
  have hbr : batchResourceRoute env s e = none := by
    unfold batchResourceRoute
    cases hres : truthyOpt (e.resource.map Resource.gid) with
    | none => rfl
    | some rid =>
      rw [hres] at h2
      have hr2 : resolvedRoomFor env s rid = none := Option.isNone_iff_eq_none.mp h2
      cases hpar : truthyOpt (e.parent.map Resource.gid) with
      | none => simp [hr2]
      | some pid =>
        rw [hpar] at h3
        have hp2 : resolvedRoomFor env s pid = none := Option.isNone_iff_eq_none.mp h3
        simp [hr2, hp2]
  simp [batchResolve, hb, hbr, Option.orElse]

theorem unresolvable_perEventRoute (env : Env) (s : PersistState) (e : Event)
    (h : eventUnresolvable env s e = true)
    (hfvc : firstValidWebhookConfig s = none)
    (hroom : s.roomRecs = []) : perEventRoute env s e = none := by
  simp only [eventUnresolvable, Bool.and_eq_true] at h
  obtain ⟨⟨⟨⟨_, h2⟩, h3⟩, h4⟩, h5⟩ := h
  have hres : (match truthyOpt (e.resource.map Resource.gid) with
      | some rid => resolvedRoomFor env s rid
      | none => none) = none := by
    cases hr : truthyOpt (e.resource.map Resource.gid) with
    | none => rfl
    | some rid => rw [hr] at h2; exact Option.isNone_iff_eq_none.mp h2
  have hpar : (match truthyOpt (e.parent.map Resource.gid) with
      | some pid => resolvedRoomFor env s pid
      | none => none) = none := by
    cases hp : truthyOpt (e.parent.map Resource.gid) with
    | none => rfl
    | some pid => rw [hp] at h3; exact Option.isNone_iff_eq_none.mp h3
  have hproj : projectWebhookRoom env s e = none := by
    unfold projectWebhookRoom
    by_cases htype : ((e.resource.map Resource.resource_type).getD "" != "task") = true
    · simp [htype]
    · simp only [eq_false_of_ne_true htype, if_false]
      have hweb : (match truthyOpt (e.webhook.map Resource.gid) with
          | some w => resolvedRoomFor env s w
          | none => none) = none := by
        cases hw : truthyOpt (e.webhook.map Resource.gid) with
        | none => rfl
        | some w => rw [hw] at h4; exact Option.isNone_iff_eq_none.mp h4
      rw [hweb]
      cases htd : env.taskDetails ((e.resource.map Resource.gid).getD "") with
      | none =>
        simp only [findAnyProjectWebhookRoom, hfvc, readAllRoomRecs, hroom]
        rfl
      | some td =>
        rw [htd] at h5
        have hfm : td.projects.filterMap (fun p => resolvedRoomFor env s p.gid) = [] := by
          refine List.filterMap_eq_nil_iff.mpr ?_
          intro p hp
          exact Option.isNone_iff_eq_none.mp (List.all_eq_true.mp h5 p hp)
        by_cases hemp : td.projects.isEmpty = true
        · simp [hemp]
        · simp [eq_false_of_ne_true hemp, hfm]
  unfold perEventRoute
  rw [hres, hpar, hfvc]
  simpa using hproj

/-- C5 (amended): an event is dropped with only a log entry — no chat message
to any room, no retry, no dead-letter handling — when no room is resolved by
the direct, indirect, task-project, or parent lookup strategies AND the
best-effort fallback paths also find no room (no `general` room, no ROOM-model
record, and no stored record carrying both a room id and a `webhook_`-prefixed
`id` property); without the second condition the code routes such events to an
arbitrary fallback room. -/
theorem C5_drop_when_unresolved (env : Env) (s : PersistState) (events : List Event)
    (h1 : noFallbackRooms env s = true)
    (h2 : ∀ e ∈ events, eventUnresolvable env s e = true) :
    processEvents env s events = (s, []) := by
  simp only [noFallbackRooms, Bool.and_eq_true] at h1
  obtain ⟨⟨hgen, hroom⟩, hmisc⟩ := h1
  have hgen2 : env.generalRoom = none := Option.isNone_iff_eq_none.mp hgen
  have hroom2 : s.roomRecs = [] := List.isEmpty_iff.mp hroom
  have hfilter : (readAllMisc s).filter isWebhookConfigRecord = [] := by
    refine List.filter_eq_nil_iff.mpr ?_
    intro r hr
    simpa using List.all_eq_true.mp hmisc r hr
  have hchk : checkIfAnyConfigExists s = false := by
    simp [checkIfAnyConfigExists, hfilter]
  have hcreate : ∀ e, createWebhookConfigIfNeeded env s e = none := by
    intro e
    simp [createWebhookConfigIfNeeded, hgen2, firstExistingRoomFromRoomRecs,
      readAllRoomRecs, hroom2]
  have hauto : autoStep env s (deduplicateEvents events) = (s, none) := by
    cases hd : deduplicateEvents events with
    | nil => rfl
    | cons e0 rest => simp [autoStep, hchk, hcreate]
  have hfvc : firstValidWebhookConfig s = none := by
    simp [firstValidWebhookConfig, hfilter]
  have hrecent : recentRoomRoute env s = none := by
    simp [recentRoomRoute, mostRecentRoomRec, readAllRoomRecs, hroom2]
  have hue : ∀ e ∈ deduplicateEvents events, eventUnresolvable env s e = true :=
    fun e he => h2 e ((deduplicateEvents_sublist events).subset he)
  have hbatch : (deduplicateEvents events).head?.bind
      (fun e0 => batchResolve env s e0) = none := by
    cases hd : deduplicateEvents events with
    | nil => rfl
    | cons e0 rest =>
      have he0 : eventUnresolvable env s e0 = true := hue e0 (by rw [hd]; simp)
      simp [unresolvable_batchResolve env s e0 he0]
  have hloop : (deduplicateEvents events).filterMap
      (fun e => (perEventRoute env s e).map (fun r => (e, r))) = [] := by
    refine List.filterMap_eq_nil_iff.mpr ?_
    intro e he
    rw [unresolvable_perEventRoute env s e (hue e he) hfvc hroom2]
    rfl
  unfold processEvents
  simp only [hauto, hbatch, hrecent, hloop]

/-- C5 counterexample: the event below resolves through none of the four
lookup strategies, yet — because a `general` room exists — the
auto-configuration fallback dispatches an actual chat message for it to room
G, contradicting the claim that such an event produces no message. -/
theorem C5_fallback_dispatch_counterexample :
    eventUnresolvable envC5 {} evC5 = true ∧
    (processEventsMessages envC5 {} [evC5]).2 ≠ [] ∧
    (processEventsMessages envC5 {} [evC5]).2.map ChatMessage.roomId = ["G"] := by
  exact ⟨by decide, by decide, rfl⟩

/-- Witness for C5: with no rooms anywhere, the unresolvable event is dropped
and the state is untouched. -/
theorem C5_drop_when_unresolved_witness :
    noFallbackRooms envC5w {} = true ∧
    eventUnresolvable envC5w {} evC5 = true ∧
    processEvents envC5w {} [evC5] = ({}, []) :=
  ⟨rfl, by decide, C5_drop_when_unresolved envC5w {} [evC5] rfl (by decide)⟩

/-- C10: for every task and every project event, the dispatched notification
does not depend on the event's `user` field at all, and its title line is the
one built with the constant actor name "Zilong Xue". -/
theorem C10_actor_constant (env : Env) (e : Event) (rid : String) :
    (∀ u, processTaskEvent env { e with user := u } rid = processTaskEvent env e rid) ∧
    (∀ u, processProjectEvent env { e with user := u } rid = processProjectEvent env e rid) ∧
    (∀ m, processTaskEvent env e rid = some m → m.text = taskActorLine env e) ∧
    (∀ m, processProjectEvent env e rid = some m → m.text = projectActorLine env e) := by
  refine ⟨fun u => rfl, fun u => rfl, ?_, ?_⟩
  · intro m hm
    simp only [processTaskEvent] at hm
    unfold taskActorLine
    cases htd : env.taskDetails ((e.resource.map Resource.gid).getD "") with
    | none => rw [htd] at hm; exact absurd hm (by simp)
    | some td =>
      rw [htd] at hm
      cases hau : env.appUser with
      | none => rw [hau] at hm; exact absurd hm (by simp)
      | some sender =>
        rw [hau] at hm
        simp only [Option.some.injEq] at hm
        rw [← hm]
  · intro m hm
    simp only [processProjectEvent] at hm
    unfold projectActorLine
    cases htd : env.projectDetails ((e.resource.map Resource.gid).getD "") with
    | none => rw [htd] at hm; exact absurd hm (by simp)
    | some pd =>
      rw [htd] at hm
      cases hau : env.appUser with
      | none => rw [hau] at hm; exact absurd hm (by simp)
      | some sender =>
        rw [hau] at hm
        simp only [Option.some.injEq] at hm
        rw [← hm]

/-- Witness for C10: a completed-task event carrying user Alice renders the
same message as with no user, and its title line says "Zilong Xue". -/
theorem C10_actor_constant_witness :
    processTaskEvent envC10 { evC10 with user := none } "R" =
      processTaskEvent envC10 evC10 "R" ∧
    (processTaskEvent envC10 evC10 "R").map ChatMessage.text =
      some "✅ Zilong Xue completed task: *T*" := by
  refine ⟨(C10_actor_constant envC10 evC10 "R").1 none, ?_⟩
  have h := (C10_actor_constant envC10 evC10 "R").2.2.1
  cases hm : processTaskEvent envC10 evC10 "R" with
  | none => exact absurd hm (by decide)
  | some m =>
    have ht := h m hm
    have h1 : (some m).map ChatMessage.text = some m.text := rfl
    rw [h1, ht]
    rfl

end AsanaBridge
